import Mathlib

/-!
Verification of the coinbase-pro-client websocket core.

Shallow embedding of `coinbase-client/src/web_socket/` (common.rs,
request.rs, response.rs, handler.rs, client.rs) and proofs of the
specified properties.

Conventions of the embedding:
* Rust `HashSet` values become `Finset` (deduplicated, order-free), since
  `HashSet` iteration order is unspecified.
* `i64` becomes `Int`; `BigDecimal` becomes `Rat`; `DateTime<Utc>` becomes
  an opaque `String` timestamp; `bool` becomes `Bool`.
* JSON values produced/consumed by the custom serde code of `common.rs`
  are modelled by an explicit `Json` inductive.
* The external collaborators (tungstenite transport, crossbeam queue,
  wall clock) are modelled as oracles: lists of the successive results
  their calls return.  Rust panics (`unwrap`, `expect`) become an explicit
  `panicked` outcome; a loop that would keep spinning past the end of an
  oracle becomes `stillRunning`.
-/

/-- The seven known channel kinds (`common.rs`, enum `Channels`). -/
inductive Channels
  | heartbeat
  | status
  | ticker
  | level2
  | matches
  | user
  | full
deriving DecidableEq, Repr

/-- `impl ToString for Channels` (`common.rs` lines 37-50): the lowercase
name.  The derived serde `Serialize` with `rename_all = "lowercase"`
produces the same strings. -/
def Channels.toStr : Channels → String
  | .heartbeat => "heartbeat"
  | .status => "status"
  | .ticker => "ticker"
  | .level2 => "level2"
  | .matches => "matches"
  | .user => "user"
  | .full => "full"

/-- Rust's `str::to_lowercase`, modelled character by character (ASCII is
all the channel names need). -/
def lowerStr (s : String) : String :=
  String.mk (s.data.map Char.toLower)

/-- `impl FromStr for Channels` (`common.rs` lines 20-35): lowercases the
input, then matches the seven known names. -/
def Channels.fromStr (s : String) : Option Channels :=
  match lowerStr s with
  | "heartbeat" => some .heartbeat
  | "status" => some .status
  | "ticker" => some .ticker
  | "level2" => some .level2
  | "matches" => some .matches
  | "user" => some .user
  | "full" => some .full
  | _ => none

/-- `struct Channel` (`common.rs` lines 52-56): a channel name with an
optional product-id restriction.  Derives `Eq`/`Hash` structurally in the
source, so `DecidableEq` here. -/
structure Channel where
  name : Channels
  product_ids : Option (List String)
deriving DecidableEq, Repr

/-- `Channel::new` (`common.rs` line 59). -/
def Channel.new (c : Channels) : Channel := ⟨c, none⟩

/-- `Channel::with_product_ids` (`common.rs` lines 61-63). -/
def Channel.with_product_ids (c : Channels) (pids : List String) : Channel :=
  ⟨c, some pids⟩

/-- JSON values, as produced by serde_json. -/
inductive Json
  | str (s : String)
  | num (n : Int)
  | bool (b : Bool)
  | null
  | arr (xs : List Json)
  | obj (fields : List (String × Json))

/-- Extract a JSON string, as serde's `next_value::<String>()` does
(anything but a string is a type error). -/
def Json.asString? : Json → Option String
  | .str s => some s
  | _ => none

/-- All-strings extraction from a list of JSON values: `none` as soon as
one element is not a string. -/
def Json.allStrings? : List Json → Option (List String)
  | [] => some []
  | x :: xs =>
    match x.asString?, Json.allStrings? xs with
    | some s, some rest => some (s :: rest)
    | _, _ => none

/-- Extract a JSON array of strings, as serde's
`next_value::<Vec<String>>()` does. -/
def Json.asStringList? : Json → Option (List String)
  | .arr xs => Json.allStrings? xs
  | _ => none

/-- `impl Serialize for Channel` (`common.rs` lines 72-84): a bare string
when `product_ids` is absent, else a two-field object. -/
def Channel.serialize (c : Channel) : Json :=
  match c.product_ids with
  | none => .str c.name.toStr
  | some pids =>
    .obj [("name", .str c.name.toStr), ("product_ids", .arr (pids.map .str))]

/-- The field loop of `ChannelVisitor::visit_map` (`common.rs` lines
134-155): walk the map entries, record `name` and `product_ids`, reject
duplicate and unknown fields and wrongly-typed values. -/
def Channel.readFields :
    List (String × Json) → Option String → Option (List String) →
    Except String (Option String × Option (List String))
  | [], name, pids => .ok (name, pids)
  | (k, v) :: rest, name, pids =>
    if k = "name" then
      if name.isSome then .error "duplicate field name"
      else
        match v.asString? with
        | some s => Channel.readFields rest (some s) pids
        | none => .error "invalid type for field name"
    else if k = "product_ids" then
      if pids.isSome then .error "duplicate field product_ids"
      else
        match v.asStringList? with
        | some l => Channel.readFields rest name (some l)
        | none => .error "invalid type for field product_ids"
    else .error "unknown field"

/-- `impl Deserialize for Channel` (`common.rs` lines 86-166):
`deserialize_any` sends a JSON string to `visit_str` (parse the name, no
restriction) and a JSON object to `visit_map`; every other JSON shape is
a type error against the `ChannelVisitor`. -/
def Channel.deserialize : Json → Except String Channel
  | .str s =>
    match Channels.fromStr s with
    | some n => .ok ⟨n, none⟩
    | none => .error "could not parse into channel name"
  | .obj fields =>
    match Channel.readFields fields none none with
    | .error e => .error e
    | .ok (name?, pids) =>
      match name? with
      | none => .error "missing field name"
      | some nm =>
        match Channels.fromStr nm with
        | some n => .ok ⟨n, pids⟩
        | none => .error "could not parse into channel name"
  | _ => .error "expecting struct Channel"

theorem Channels.fromStr_toStr (n : Channels) : Channels.fromStr n.toStr = some n := by
  cases n <;> decide

theorem Json.asStringList_map_str (l : List String) :
    Json.asStringList? (.arr (l.map .str)) = some l := by
  simp only [Json.asStringList?]
  induction l with
  | nil => rfl
  | cons x xs ih => simp [Json.allStrings?, Json.asString?, ih]

/-- C3: Channel serialization is dual-form and round-trips: with no
`product_ids` it serializes to the bare channel-name string, with
`product_ids` present to the object with `name` and `product_ids` fields,
and deserializing the serialized form of any `Channel` yields that very
`Channel` back. -/
theorem channel_serde_dual_form_roundtrip (c : Channel) :
    (Channel.serialize c = match c.product_ids with
      | none => .str c.name.toStr
      | some pids =>
        .obj [("name", .str c.name.toStr), ("product_ids", .arr (pids.map .str))]) ∧
    Channel.deserialize (Channel.serialize c) = .ok c := by
  refine ⟨rfl, ?_⟩
  obtain ⟨n, pids⟩ := c
  cases pids with
  | none => simp [Channel.serialize, Channel.deserialize, Channels.fromStr_toStr]
  | some l =>
    simp [Channel.serialize, Channel.deserialize, Channel.readFields,
      Json.asString?, Json.asStringList_map_str, Channels.fromStr_toStr]

/-- `SubscribeRequest` (`request.rs` lines 16-25).  The worker builds it
with `Vec::from_iter` over its two `HashSet`s (`client.rs` lines 311-313);
since `HashSet` iteration order is unspecified, the vectors are modelled
by their element sets. -/
structure SubscribeRequest where
  product_ids : Finset String
  channels : Finset Channel
deriving DecidableEq

/-- `UnsubscribeRequest` (`request.rs` lines 29-32): the product ids may
be entirely absent. -/
structure UnsubscribeRequest where
  product_ids : Option (List String)
  channels : List Channel
deriving DecidableEq

/-- `UnsubscribeRequest::new` (`request.rs` lines 39-41). -/
def UnsubscribeRequest.new (pids : List String) (chans : List Channel) :
    UnsubscribeRequest := ⟨some pids, chans⟩

/-- `RequestMessages` (`request.rs` lines 8-11): the outbound envelope. -/
inductive RequestMessages
  | subscribe (req : SubscribeRequest)
  | unsubscribe (req : UnsubscribeRequest)
deriving DecidableEq

/-- `TerminateOrReconnect` (`client.rs` lines 175-178). -/
inductive TerminateOrReconnect
  | reconnect
  | terminal
deriving DecidableEq, Repr

/-- The variants of `tungstenite::Error` (version 0.9, as used by the
crate): `ConnectionClosed`, `AlreadyClosed`, `Io(_)`, `Tls(_)`,
`Capacity(_)`, `Protocol(_)`, `SendQueueFull(_)`, `Utf8`, `Url(_)`,
`Http(_)`, `HttpFormat(_)`.  Payloads are irrelevant to the
classification and are dropped. -/
inductive TungsteniteError
  | connectionClosed
  | alreadyClosed
  | io
  | tls
  | capacity
  | protocol
  | sendQueueFull
  | utf8
  | url
  | http
  | httpFormat
deriving DecidableEq, Repr

/-- `handle_ws_error` (`client.rs` lines 444-471): classify a transport
error on the send/receive paths.  `ConnectionClosed` is terminal,
`AlreadyClosed` and `Io` reconnect, everything else is logged and
swallowed (`Ok(())`). -/
def handle_ws_error : TungsteniteError → Except TerminateOrReconnect Unit
  | .connectionClosed => .error .terminal
  | .alreadyClosed => .error .reconnect
  | .io => .error .reconnect
  | _ => .ok ()

/-- The mutable state of `CoinBaseWebSocketClientWorker` (`client.rs`
lines 180-188): last connect attempt time, the optional socket handle
(presence only), the two accumulated subscription `HashSet`s, and the
handler's own state (the worker owns `handler: T`; its mutable content is
`σ`). -/
structure Worker (σ : Type) where
  last_connect_time : Option Nat
  opt_socket : Option Unit
  product_ids : Finset String
  channels : Finset Channel
  handlerState : σ

/-- `append_subscriptions` (`client.rs` lines 306-309): `HashSet::extend`
with the command's vectors, i.e. insert every element. -/
def append_subscriptions {σ : Type} (w : Worker σ) (pids : List String)
    (chans : List Channel) : Worker σ :=
  { w with
    product_ids := pids.foldl (fun s p => insert p s) w.product_ids
    channels := chans.foldl (fun s c => insert c s) w.channels }

/-- `remove_subscriptions` (`client.rs` lines 319-322): `HashSet::remove`
for every element of the command's vectors. -/
def remove_subscriptions {σ : Type} (w : Worker σ) (pids : List String)
    (chans : List Channel) : Worker σ :=
  { w with
    product_ids := pids.foldl (fun s p => s.erase p) w.product_ids
    channels := chans.foldl (fun s c => s.erase c) w.channels }

/-- The envelope `Worker::subscribe` sends (`client.rs` lines 311-317):
the entire accumulated product-id and channel sets. -/
def subscribeRequest {σ : Type} (w : Worker σ) : SubscribeRequest :=
  ⟨w.product_ids, w.channels⟩

/-- The envelope `Worker::unsubscribe` sends (`client.rs` lines 324-328):
exactly the command's vectors, via `UnsubscribeRequest::new`. -/
def unsubscribeRequest (pids : List String) (chans : List Channel) :
    UnsubscribeRequest :=
  UnsubscribeRequest.new pids chans

theorem mem_foldl_insert {α : Type} [DecidableEq α] (l : List α) (s : Finset α) (x : α) :
    x ∈ l.foldl (fun s y => insert y s) s ↔ x ∈ s ∨ x ∈ l := by
  induction l generalizing s with
  | nil => simp
  | cons a as ih => simp [ih, Finset.mem_insert]; tauto

theorem mem_foldl_erase {α : Type} [DecidableEq α] (l : List α) (s : Finset α) (x : α) :
    x ∈ l.foldl (fun s y => s.erase y) s ↔ x ∈ s ∧ x ∉ l := by
  induction l generalizing s with
  | nil => simp
  | cons a as ih => simp [ih, Finset.mem_erase]; tauto

/-- C2: folding any sequence of Subscribe commands through
`append_subscriptions` accumulates the set-union (deduplicated) of all
the commands' product ids and channels on top of the starting sets, and
the subscribe envelope built afterwards carries exactly those entire
accumulated sets, never a delta. -/
theorem subscribe_accumulates_union {σ : Type} (w : Worker σ)
    (cmds : List (List String × List Channel)) :
    (∀ p, p ∈ (subscribeRequest (cmds.foldl
        (fun w c => append_subscriptions w c.1 c.2) w)).product_ids ↔
      p ∈ w.product_ids ∨ ∃ c ∈ cmds, p ∈ c.1) ∧
    (∀ ch, ch ∈ (subscribeRequest (cmds.foldl
        (fun w c => append_subscriptions w c.1 c.2) w)).channels ↔
      ch ∈ w.channels ∨ ∃ c ∈ cmds, ch ∈ c.2) := by
  induction cmds generalizing w with
  | nil => simp [subscribeRequest]
  | cons c cs ih =>
    obtain ⟨ih1, ih2⟩ := ih (append_subscriptions w c.1 c.2)
    constructor
    · intro p
      rw [List.foldl_cons, ih1 p]
      simp [append_subscriptions, mem_foldl_insert]
      tauto
    · intro ch
      rw [List.foldl_cons, ih2 ch]
      simp [append_subscriptions, mem_foldl_insert]
      tauto

/-- C8: an Unsubscribe command removes exactly the named product ids and
channels from the accumulated sets (membership afterwards holds iff it
held before and the entry was not named), the delta unsubscribe envelope
contains only the command's own vectors, and the next full-set subscribe
envelope carries the post-removal accumulated sets (so every entry not
named is still in it). -/
theorem unsubscribe_removes_exactly_and_sends_delta {σ : Type} (w : Worker σ)
    (pids : List String) (chans : List Channel) :
    (∀ p, p ∈ (remove_subscriptions w pids chans).product_ids ↔
      p ∈ w.product_ids ∧ p ∉ pids) ∧
    (∀ ch, ch ∈ (remove_subscriptions w pids chans).channels ↔
      ch ∈ w.channels ∧ ch ∉ chans) ∧
    unsubscribeRequest pids chans = ⟨some pids, chans⟩ ∧
    (subscribeRequest (remove_subscriptions w pids chans)).product_ids =
      (remove_subscriptions w pids chans).product_ids ∧
    (subscribeRequest (remove_subscriptions w pids chans)).channels =
      (remove_subscriptions w pids chans).channels := by
  refine ⟨?_, ?_, rfl, rfl, rfl⟩
  · intro p
    simp [remove_subscriptions, mem_foldl_erase]
  · intro ch
    simp [remove_subscriptions, mem_foldl_erase]

/-- C10: unsubscribe removal matches by full structural equality of the
`Channel` value.  Removing the unrestricted spec of a name never removes
a stored restricted spec of the same name and vice versa, and removing
product ids and channels that are not present leaves both sets exactly
as they were. -/
theorem remove_subscriptions_structural_equality {σ : Type} (w : Worker σ)
    (n : Channels) (ps : List String) (pids : List String) (chans : List Channel)
    (h1 : Channel.mk n (some ps) ∈ w.channels)
    (h2 : Channel.mk n none ∈ w.channels)
    (hp : ∀ p ∈ pids, p ∉ w.product_ids)
    (hc : ∀ c ∈ chans, c ∉ w.channels) :
    Channel.mk n (some ps) ∈ (remove_subscriptions w [] [Channel.mk n none]).channels ∧
    Channel.mk n none ∈ (remove_subscriptions w [] [Channel.mk n (some ps)]).channels ∧
    remove_subscriptions w pids chans = w := by
  refine ⟨?_, ?_, ?_⟩
  · simp [remove_subscriptions, mem_foldl_erase, h1]
  · simp [remove_subscriptions, mem_foldl_erase, h2]
  · obtain ⟨lt, sk, pset, cset, hs⟩ := w
    simp only [remove_subscriptions]
    congr 1
    · apply Finset.ext
      intro p
      rw [mem_foldl_erase]
      simp only at hp ⊢
      constructor
      · exact fun h => h.1
      · intro h
        exact ⟨h, fun hmem => hp p hmem h⟩
    · apply Finset.ext
      intro c
      rw [mem_foldl_erase]
      simp only at hc ⊢
      constructor
      · exact fun h => h.1
      · intro h
        exact ⟨h, fun hmem => hc c hmem h⟩

/-- Witness for C10 at a concrete subscription set. -/
theorem remove_subscriptions_structural_equality_witness :
    Channel.mk .ticker (some ["BTC-USD"]) ∈ (remove_subscriptions
      (⟨none, none, {"ETH-USD"},
        {Channel.mk .ticker (some ["BTC-USD"]), Channel.mk .ticker none}, ()⟩ : Worker Unit)
      [] [Channel.mk .ticker none]).channels ∧
    Channel.mk .ticker none ∈ (remove_subscriptions
      (⟨none, none, {"ETH-USD"},
        {Channel.mk .ticker (some ["BTC-USD"]), Channel.mk .ticker none}, ()⟩ : Worker Unit)
      [] [Channel.mk .ticker (some ["BTC-USD"])]).channels ∧
    remove_subscriptions
      (⟨none, none, {"ETH-USD"},
        {Channel.mk .ticker (some ["BTC-USD"]), Channel.mk .ticker none}, ()⟩ : Worker Unit)
      ["BTC-USD"] [Channel.mk .status none] =
      ⟨none, none, {"ETH-USD"},
        {Channel.mk .ticker (some ["BTC-USD"]), Channel.mk .ticker none}, ()⟩ :=
  remove_subscriptions_structural_equality
    (⟨none, none, {"ETH-USD"},
      {Channel.mk .ticker (some ["BTC-USD"]), Channel.mk .ticker none}, ()⟩ : Worker Unit)
    .ticker ["BTC-USD"] ["BTC-USD"] [Channel.mk .status none]
    (by decide) (by decide) (by decide) (by decide)

/-- C5: the transport-error classification on the send/receive paths maps
each `tungstenite::Error` variant to exactly the spec's table:
`ConnectionClosed` is Terminal, `AlreadyClosed` and `Io` are Reconnect,
and every other variant is logged only and yields success (no state
transition). -/
theorem handle_ws_error_classification :
    handle_ws_error .connectionClosed = .error .terminal ∧
    handle_ws_error .alreadyClosed = .error .reconnect ∧
    handle_ws_error .io = .error .reconnect ∧
    handle_ws_error .tls = .ok () ∧
    handle_ws_error .capacity = .ok () ∧
    handle_ws_error .protocol = .ok () ∧
    handle_ws_error .sendQueueFull = .ok () ∧
    handle_ws_error .utf8 = .ok () ∧
    handle_ws_error .url = .ok () ∧
    handle_ws_error .http = .ok () ∧
    handle_ws_error .httpFormat = .ok () :=
  ⟨rfl, rfl, rfl, rfl, rfl, rfl, rfl, rfl, rfl, rfl, rfl⟩

/-! Inbound payloads (`response.rs`) and the handler chain (`handler.rs`) -/

/-- `bigdecimal::BigDecimal`, modelled as an exact rational. -/
abbrev BigDecimal := Rat

/-- `chrono::DateTime<Utc>`, modelled as an opaque timestamp string. -/
abbrev UtcTime := String

/-- `Side` (`response.rs` line 15). -/
inductive Side
  | buy
  | sell
deriving DecidableEq, Repr

/-- `OrderType` (`response.rs` line 19). -/
inductive OrderType
  | limit
  | market
  | stop
deriving DecidableEq, Repr

/-- `FinishReason` (`response.rs` line 23). -/
inductive FinishReason
  | filled
  | canceled
deriving DecidableEq, Repr

/-- `Product` (`response.rs`). -/
structure Product where
  id : String
  base_currency : String
  quote_currency : String
  base_min_size : Option BigDecimal
  base_max_size : Option BigDecimal
  base_increment : Option BigDecimal
  quote_increment : Option BigDecimal
  display_name : String
  status : Option String
  status_message : Option String
  min_market_funds : Option BigDecimal
  max_market_funds : Option BigDecimal
  post_only : Bool
  limit_only : Bool
  cancel_only : Option Bool

/-- `Currency` (`response.rs`). -/
structure Currency where
  id : String
  name : String
  min_size : BigDecimal
  status : String
  status_message : Option String
  max_precision : BigDecimal
  convertible_to : List String

/-- `Change` (`response.rs`), a three-element `[side, price, size]` row. -/
structure Change where
  side : Side
  price : BigDecimal
  size : BigDecimal

/-- `SubscriptionResponse` (`response.rs` lines 49-52). -/
structure SubscriptionResponse where
  channels : List Channel

/-- `HeartBeatResponse` (`response.rs` lines 54-60). -/
structure HeartBeatResponse where
  sequence : Int
  last_trade_id : Int
  product_id : String
  time : UtcTime

/-- `StatusResponse` (`response.rs` lines 62-66). -/
structure StatusResponse where
  products : List Product
  currencies : List Currency

/-- `TickerResponse` (`response.rs` lines 68-79). -/
structure TickerResponse where
  trade_id : Int
  sequence : Int
  time : UtcTime
  product_id : String
  price : BigDecimal
  side : Side
  last_size : BigDecimal
  best_bid : BigDecimal
  best_ask : BigDecimal

/-- `SnapshotResponse` (`response.rs`). -/
structure SnapshotResponse where
  product_id : String
  bids : List (List BigDecimal)
  asks : List (List BigDecimal)

/-- `L2UpdateResponse` (`response.rs`). -/
structure L2UpdateResponse where
  product_id : String
  time : UtcTime
  changes : List Change

/-- `MatchResponse` (`response.rs`). -/
structure MatchResponse where
  time : UtcTime
  product_id : String
  sequence : Int
  trade_id : Int
  maker_order_id : String
  taker_order_id : String
  size : BigDecimal
  price : BigDecimal
  side : Side

/-- `ReceivedResponse` (`response.rs`). -/
structure ReceivedResponse where
  time : UtcTime
  product_id : String
  sequence : Int
  order_id : String
  side : Side
  order_type : OrderType
  size : Option BigDecimal
  price : Option BigDecimal
  funds : Option BigDecimal

/-- `OpenResponse` (`response.rs`). -/
structure OpenResponse where
  time : UtcTime
  product_id : String
  sequence : Int
  order_id : String
  price : BigDecimal
  side : Side
  remaining_size : BigDecimal

/-- `ChangeResponse` (`response.rs`). -/
structure ChangeResponse where
  time : UtcTime
  product_id : String
  sequence : Int
  order_id : String
  new_size : BigDecimal
  old_size : BigDecimal
  price : Option BigDecimal
  side : Side

/-- `DoneResponse` (`response.rs`). -/
structure DoneResponse where
  time : UtcTime
  product_id : String
  sequence : Int
  order_id : String
  reason : FinishReason
  side : Side

/-- `ActiveResponse` (`response.rs`); `private` is a Lean keyword, hence
`private_`. -/
structure ActiveResponse where
  time : UtcTime
  product_id : String
  order_id : String
  user_id : String
  profile_id : String
  timestamp : String
  stop_type : String
  side : Side
  stop_price : BigDecimal
  size : BigDecimal
  funds : BigDecimal
  private_ : Bool

/-- `LastMatchResponse` (`response.rs`). -/
structure LastMatchResponse where
  trade_id : Int
  maker_order_id : String
  taker_order_id : String
  side : Side
  size : BigDecimal
  price : BigDecimal
  product_id : String
  sequence : Int
  time : UtcTime

/-- `ErrorResponse` (`response.rs`): message plus flattened extras. -/
structure ErrorResponse where
  msg : String
  extra : List (String × Json)

/-- `ResponseMessages` (`response.rs` lines 26-47): the inbound envelope,
tagged by the lowercase `type` field.  `match` and `open` are Lean
keywords, hence the trailing underscores on those two constructors. -/
inductive ResponseMessages
  | subscriptions (resp : SubscriptionResponse)
  | heartbeat (resp : HeartBeatResponse)
  | status (resp : StatusResponse)
  | ticker (resp : TickerResponse)
  | snapshot (resp : SnapshotResponse)
  | l2update (resp : L2UpdateResponse)
  | match_ (resp : MatchResponse)
  | received (resp : ReceivedResponse)
  | open_ (resp : OpenResponse)
  | change (resp : ChangeResponse)
  | done (resp : DoneResponse)
  | active (resp : ActiveResponse)
  | error (resp : ErrorResponse)
  | last_match (resp : LastMatchResponse)

/-- `Terminate` (`handler.rs` line 4): the unit-like terminate-request
signal. -/
structure Terminate

/-- The trait `CoinBaseWebSocketMessageHandler` (`handler.rs` lines 7-24):
optional callbacks, each defaulting to a no-op success.  A handler's
mutable state (`&mut self`) is threaded explicitly as `σ`.  The source's
`initialize` method is named `init` here. -/
structure Handler (σ : Type) where
  init : σ → σ × Except Terminate Unit := fun s => (s, .ok ())
  on_subscriptions : σ → SubscriptionResponse → σ × Except Terminate Unit := fun s _ => (s, .ok ())
  on_heartbeat : σ → HeartBeatResponse → σ × Except Terminate Unit := fun s _ => (s, .ok ())
  on_status : σ → StatusResponse → σ × Except Terminate Unit := fun s _ => (s, .ok ())
  on_ticker : σ → TickerResponse → σ × Except Terminate Unit := fun s _ => (s, .ok ())
  on_snapshot : σ → SnapshotResponse → σ × Except Terminate Unit := fun s _ => (s, .ok ())
  on_l2_update : σ → L2UpdateResponse → σ × Except Terminate Unit := fun s _ => (s, .ok ())
  on_match : σ → MatchResponse → σ × Except Terminate Unit := fun s _ => (s, .ok ())
  on_received : σ → ReceivedResponse → σ × Except Terminate Unit := fun s _ => (s, .ok ())
  on_open : σ → OpenResponse → σ × Except Terminate Unit := fun s _ => (s, .ok ())
  on_change : σ → ChangeResponse → σ × Except Terminate Unit := fun s _ => (s, .ok ())
  on_done : σ → DoneResponse → σ × Except Terminate Unit := fun s _ => (s, .ok ())
  on_active : σ → ActiveResponse → σ × Except Terminate Unit := fun s _ => (s, .ok ())
  on_last_match : σ → LastMatchResponse → σ × Except Terminate Unit := fun s _ => (s, .ok ())
  on_error : σ → ErrorResponse → σ × Except Terminate Unit := fun s _ => (s, .ok ())
  close : σ → σ × Except Terminate Unit := fun s => (s, .ok ())

/-- The tag-to-callback routing table of `handle_message` (`client.rs`
lines 424-439). -/
def dispatch {σ : Type} (h : Handler σ) (s : σ) :
    ResponseMessages → σ × Except Terminate Unit
  | .subscriptions r => h.on_subscriptions s r
  | .heartbeat r => h.on_heartbeat s r
  | .status r => h.on_status s r
  | .ticker r => h.on_ticker s r
  | .snapshot r => h.on_snapshot s r
  | .l2update r => h.on_l2_update s r
  | .match_ r => h.on_match s r
  | .received r => h.on_received s r
  | .open_ r => h.on_open s r
  | .change r => h.on_change s r
  | .done r => h.on_done s r
  | .active r => h.on_active s r
  | .error r => h.on_error s r
  | .last_match r => h.on_last_match s r

/-- One boxed sink of the composite (`handler.rs` line 29): a handler
together with its own state. -/
structure Sink (σ : Type) where
  handler : Handler σ
  state : σ

/-- The per-sink loop of the `compose_visitors!` macro (`handler.rs` lines
38-55): invoke the selected callback on every sink in order, collecting
the errors in invocation order. -/
def runAllSinks {σ : Type} (call : Handler σ → σ → σ × Except Terminate Unit) :
    List (Sink σ) → List (Sink σ) × List Terminate
  | [] => ([], [])
  | sk :: rest =>
    let r := call sk.handler sk.state
    let tail := runAllSinks call rest
    (⟨sk.handler, r.1⟩ :: tail.1,
      (match r.2 with | .error e => [e] | .ok _ => []) ++ tail.2)

/-- The result shaping of `compose_visitors!`: `Err(Terminate)` iff the
collected error list is non-empty. -/
def compose_visitors {σ : Type} (call : Handler σ → σ → σ × Except Terminate Unit)
    (sinks : List (Sink σ)) : List (Sink σ) × Except Terminate Unit :=
  let r := runAllSinks call sinks
  (r.1, if r.2.isEmpty then .ok () else .error ⟨⟩)

/-- The `impl CoinBaseWebSocketMessageHandler for
CompositeCoinBaseWebSocketMessageHandler` (`handler.rs` lines 57-122):
every one of the 16 methods is `compose_visitors` applied to the
corresponding per-sink callback; the composite's state is its sink
list. -/
def compositeHandler (σ : Type) : Handler (List (Sink σ)) where
  init := fun sinks => compose_visitors (fun h s => h.init s) sinks
  on_subscriptions := fun sinks r => compose_visitors (fun h s => h.on_subscriptions s r) sinks
  on_heartbeat := fun sinks r => compose_visitors (fun h s => h.on_heartbeat s r) sinks
  on_status := fun sinks r => compose_visitors (fun h s => h.on_status s r) sinks
  on_ticker := fun sinks r => compose_visitors (fun h s => h.on_ticker s r) sinks
  on_snapshot := fun sinks r => compose_visitors (fun h s => h.on_snapshot s r) sinks
  on_l2_update := fun sinks r => compose_visitors (fun h s => h.on_l2_update s r) sinks
  on_match := fun sinks r => compose_visitors (fun h s => h.on_match s r) sinks
  on_received := fun sinks r => compose_visitors (fun h s => h.on_received s r) sinks
  on_open := fun sinks r => compose_visitors (fun h s => h.on_open s r) sinks
  on_change := fun sinks r => compose_visitors (fun h s => h.on_change s r) sinks
  on_done := fun sinks r => compose_visitors (fun h s => h.on_done s r) sinks
  on_active := fun sinks r => compose_visitors (fun h s => h.on_active s r) sinks
  on_last_match := fun sinks r => compose_visitors (fun h s => h.on_last_match s r) sinks
  on_error := fun sinks r => compose_visitors (fun h s => h.on_error s r) sinks
  close := fun sinks => compose_visitors (fun h s => h.close s) sinks

theorem runAllSinks_fst {σ : Type} (call : Handler σ → σ → σ × Except Terminate Unit)
    (sinks : List (Sink σ)) :
    (runAllSinks call sinks).1 =
      sinks.map (fun sk => ⟨sk.handler, (call sk.handler sk.state).1⟩) := by
  induction sinks with
  | nil => rfl
  | cons sk rest ih => simp [runAllSinks, ih]

theorem runAllSinks_snd {σ : Type} (call : Handler σ → σ → σ × Except Terminate Unit)
    (sinks : List (Sink σ)) :
    (runAllSinks call sinks).2 = sinks.filterMap
      (fun sk => match (call sk.handler sk.state).2 with
        | .error e => some e
        | .ok _ => none) := by
  induction sinks with
  | nil => rfl
  | cons sk rest ih =>
    simp only [runAllSinks, List.filterMap_cons, ih]
    cases (call sk.handler sk.state).2 <;> simp

theorem runAllSinks_snd_empty_iff {σ : Type}
    (call : Handler σ → σ → σ × Except Terminate Unit) (sinks : List (Sink σ)) :
    (runAllSinks call sinks).2 = [] ↔
      ∀ sk ∈ sinks, (call sk.handler sk.state).2 = .ok () := by
  rw [runAllSinks_snd, List.filterMap_eq_nil_iff]
  constructor
  · intro h sk hsk
    have hh := h sk hsk
    revert hh
    cases (call sk.handler sk.state).2 with
    | ok u => cases u; intro _; rfl
    | error e => intro hh; exact absurd hh (by simp)
  · intro h sk hsk
    rw [h sk hsk]

/-- C7: for every list of sinks and every dispatched callback (the 16
methods of `compositeHandler` each instantiate `call` with the matching
per-sink callback), the composite invokes that callback on every sink in
order — each resulting sink state is its own callback's output,
regardless of what the other sinks returned, so there is no
short-circuiting — and the composite returns the terminate request
`Err(Terminate)` iff at least one sink's callback returned a terminate
request. -/
theorem composite_invokes_every_sink_and_terminates_iff_any {σ : Type}
    (call : Handler σ → σ → σ × Except Terminate Unit) (sinks : List (Sink σ)) :
    (compose_visitors call sinks).1 =
      sinks.map (fun sk => ⟨sk.handler, (call sk.handler sk.state).1⟩) ∧
    ((compose_visitors call sinks).2 = .error ⟨⟩ ↔
      ∃ sk ∈ sinks, (call sk.handler sk.state).2 = .error ⟨⟩) := by
  constructor
  · simpa [compose_visitors] using runAllSinks_fst call sinks
  · simp only [compose_visitors]
    rcases h : (runAllSinks call sinks).2 with _ | ⟨e, es⟩
    · simp only [List.isEmpty_nil, if_true]
      have := (runAllSinks_snd_empty_iff call sinks).mp h
      constructor
      · intro hcon
        exact absurd hcon (by simp)
      · rintro ⟨sk, hsk, herr⟩
        rw [this sk hsk] at herr
        exact absurd herr (by simp)
    · simp only [List.isEmpty_cons, if_false]
      constructor
      · intro _
        by_contra hnone
        push_neg at hnone
        have : ∀ sk ∈ sinks, (call sk.handler sk.state).2 = .ok () := by
          intro sk hsk
          cases hr : (call sk.handler sk.state).2 with
          | ok u => cases u; rfl
          | error e' =>
            cases e'
            exact absurd hr (hnone sk hsk)
        rw [(runAllSinks_snd_empty_iff call sinks).mpr this] at h
        cases h
      · intro _
        rfl

/-! The worker state machine (`client.rs`) -/

/-- `WebSocketWorkerMessages` (`client.rs` lines 21-25). -/
inductive WorkerMsg
  | subscribe (product_ids : List String) (channels : List Channel)
  | unsubscribe (product_ids : List String) (channels : List Channel)
  | stop
deriving DecidableEq, Repr

/-- The result of one `receiver.try_recv()` call on the crossbeam
queue. -/
inductive QueueEvent
  | msg (m : WorkerMsg)
  | empty
  | disconnected
deriving DecidableEq, Repr

/-- `tungstenite::Message` frames as read from the socket. -/
inductive Frame
  | text (json : String)
  | close (frame? : Option (Nat × String))
  | ping
  | pong
  | binary

/-- The worker's environment: oracles listing the successive results of
its external calls (queue polls, `Instant::now()` readings inside
`connect`, `tungstenite::connect` attempts, `write_message` sends,
`read_message` reads) plus a log of every envelope handed to
`write_message`. -/
structure Env where
  queue : List QueueEvent
  times : List Nat
  connects : List (Except TungsteniteError Unit)
  sends : List (Except TungsteniteError Unit)
  reads : List (Except TungsteniteError Frame)
  sent : List RequestMessages

/-- Outcome of a worker operation: normal return, early `Err` return with
a `TerminateOrReconnect`, a Rust panic, or a loop still spinning when its
oracle ran out. -/
inductive Outcome (σ α : Type)
  | ok (w : Worker σ) (env : Env) (a : α)
  | fail (w : Worker σ) (env : Env) (e : TerminateOrReconnect)
  | panicked
  | stillRunning

/-- Rust's `?` / `and_then` on worker operations. -/
def Outcome.bind {σ α β : Type} (o : Outcome σ α)
    (f : Worker σ → Env → α → Outcome σ β) : Outcome σ β :=
  match o with
  | .ok w env a => f w env a
  | .fail w env e => .fail w env e
  | .panicked => .panicked
  | .stillRunning => .stillRunning

/-- The `can_try_to_connect` gate (`client.rs` lines 267-269): no last
attempt, or last attempt more than 500 ms ago. -/
def canTryToConnect (last : Option Nat) (now : Nat) : Bool :=
  match last with
  | none => true
  | some t => decide (t + 500 < now)

/-- Result of the `connect` retry loop. -/
inductive ConnectOut (σ : Type)
  | connected (w : Worker σ) (times : List Nat)
      (connects : List (Except TungsteniteError Unit))
  | terminal (w : Worker σ) (times : List Nat)
      (connects : List (Except TungsteniteError Unit))
  | stillRunning

/-- The loop body of `connect` (`client.rs` lines 265-304), used for both
bootstrap and reconnect.  Each iteration consumes one `Instant::now()`
reading; when the 500 ms gate blocks, it sleeps 250 ms and re-checks
(consuming the next reading, attempting nothing).  A successful attempt
stores the new socket (dropping the old one).  `Error::ConnectionClosed`
returns `Err(Terminal)` at once, leaving the remaining attempts
unconsumed; any other error is logged, stamps `last_connect_time` with
the current reading, and the loop retries without bound. -/
def connectLoop {σ : Type} (w : Worker σ) :
    List Nat → List (Except TungsteniteError Unit) → ConnectOut σ
  | [], _ => .stillRunning
  | now :: ts, conns =>
    if canTryToConnect w.last_connect_time now then
      match conns with
      | [] => .stillRunning
      | .ok () :: cs => .connected { w with opt_socket := some () } ts cs
      | .error .connectionClosed :: cs => .terminal w ts cs
      | .error _ :: cs => connectLoop { w with last_connect_time := some now } ts cs
    else
      connectLoop w ts conns

/-- `connect` (`client.rs` lines 265-304) as an operation on the full
environment. -/
def connect {σ : Type} (w : Worker σ) (env : Env) : Outcome σ Unit :=
  match connectLoop w env.times env.connects with
  | .connected w ts cs => .ok w { env with times := ts, connects := cs } ()
  | .terminal w ts cs => .fail w { env with times := ts, connects := cs } .terminal
  | .stillRunning => .stillRunning

/-- `send_request` (`client.rs` lines 330-337): unwrap the socket (panics
when absent), serialize the envelope, `write_message`, and classify a
send error with `handle_ws_error`. -/
def send_request {σ : Type} (w : Worker σ) (env : Env) (request : RequestMessages) :
    Outcome σ Unit :=
  match w.opt_socket with
  | none => .panicked
  | some _ =>
    match env.sends with
    | [] => .stillRunning
    | r :: rest =>
      let env := { env with sends := rest, sent := env.sent ++ [request] }
      match r with
      | .ok () => .ok w env ()
      | .error e =>
        match handle_ws_error e with
        | .ok () => .ok w env ()
        | .error t => .fail w env t

/-- `Worker::subscribe` (`client.rs` lines 311-317): send the full
accumulated sets. -/
def subscribeOp {σ : Type} (w : Worker σ) (env : Env) : Outcome σ Unit :=
  send_request w env (.subscribe (subscribeRequest w))

/-- `Worker::unsubscribe` (`client.rs` lines 324-328): send only the
command's own vectors. -/
def unsubscribeOp {σ : Type} (w : Worker σ) (env : Env)
    (pids : List String) (chans : List Channel) : Outcome σ Unit :=
  send_request w env (.unsubscribe (unsubscribeRequest pids chans))

/-- `handle_message` (`client.rs` lines 416-441): parse the text frame
(`parse` stands for `serde_json::from_str`); on failure log and ignore
(`Ok(())`); on success route by tag via `dispatch`, mapping a handler
`Terminate` to `Err(Terminal)`. -/
def handle_message {σ : Type} (parse : String → Except Unit ResponseMessages)
    (h : Handler σ) (w : Worker σ) (env : Env) (json_msg : String) : Outcome σ Unit :=
  match parse json_msg with
  | .error _ => .ok w env ()
  | .ok m =>
    let r := dispatch h w.handlerState m
    let w := { w with handlerState := r.1 }
    match r.2 with
    | .ok () => .ok w env ()
    | .error _ => .fail w env .terminal

/-- `handle_ws_message` (`client.rs` lines 395-414): text frames go to
`handle_message`, a Close frame yields `Err(Reconnect)`, Ping/Pong/Binary
are logged only. -/
def handle_ws_message {σ : Type} (parse : String → Except Unit ResponseMessages)
    (h : Handler σ) (w : Worker σ) (env : Env) : Frame → Outcome σ Unit
  | .text json => handle_message parse h w env json
  | .close _ => .fail w env .reconnect
  | .ping => .ok w env ()
  | .pong => .ok w env ()
  | .binary => .ok w env ()

/-- `consume_socket` (`client.rs` lines 382-393): unwrap the socket
(panics when absent — the source comment calls this an illegal state),
read one message, dispatch it or classify the read error. -/
def consume_socket {σ : Type} (parse : String → Except Unit ResponseMessages)
    (h : Handler σ) (w : Worker σ) (env : Env) : Outcome σ Unit :=
  match w.opt_socket with
  | none => .panicked
  | some _ =>
    match env.reads with
    | [] => .stillRunning
    | r :: rest =>
      let env := { env with reads := rest }
      match r with
      | .ok frame => handle_ws_message parse h w env frame
      | .error e =>
        match handle_ws_error e with
        | .ok () => .ok w env ()
        | .error t => .fail w env t

/-- `step` (`client.rs` lines 229-263): one non-blocking queue poll; a
command is executed, an empty queue falls through to the blocking socket
read, a disconnected queue is `Err(Terminal)`. -/
def step {σ : Type} (parse : String → Except Unit ResponseMessages)
    (h : Handler σ) (w : Worker σ) (env : Env) : Outcome σ Unit :=
  match env.queue with
  | [] => .stillRunning
  | ev :: rest =>
    let env := { env with queue := rest }
    match ev with
    | .msg (.subscribe pids chans) =>
      subscribeOp (append_subscriptions w pids chans) env
    | .msg (.unsubscribe pids chans) =>
      unsubscribeOp (remove_subscriptions w pids chans) env pids chans
    | .msg .stop => .fail w env .terminal
    | .empty => consume_socket parse h w env
    | .disconnected => .fail w env .terminal

/-- What the polling loop of `wait_until_initial_connection` (`client.rs`
lines 339-380) decides: it skips Unsubscribe commands and empty polls
(1-second sleeps) until a Subscribe, a Stop, or a disconnected queue. -/
inductive WaitDecision
  | gotSubscribe (pids : List String) (chans : List Channel) (rest : List QueueEvent)
  | gotStop (rest : List QueueEvent)
  | chanDisconnected (rest : List QueueEvent)
  | stillRunning
deriving Repr

def waitLoop : List QueueEvent → WaitDecision
  | [] => .stillRunning
  | .msg (.subscribe p c) :: rest => .gotSubscribe p c rest
  | .msg (.unsubscribe _ _) :: rest => waitLoop rest
  | .msg .stop :: rest => .gotStop rest
  | .empty :: rest => waitLoop rest
  | .disconnected :: rest => .chanDisconnected rest

/-- `wait_until_initial_connection` (`client.rs` lines 339-380): on the
first Subscribe, merge it and return `connect().and_then(subscribe)`; on
Stop return `Ok(())` (the graceful path); on a disconnected queue return
`Err(Terminal)`. -/
def wait_until_initial_connection {σ : Type} (w : Worker σ) (env : Env) :
    Outcome σ Unit :=
  match waitLoop env.queue with
  | .gotSubscribe pids chans rest =>
    (connect (append_subscriptions w pids chans) { env with queue := rest }).bind
      (fun w env _ => subscribeOp w env)
  | .gotStop rest => .ok w { env with queue := rest } ()
  | .chanDisconnected rest => .fail w { env with queue := rest } .terminal
  | .stillRunning => .stillRunning

/-- How `run` ends: a normal return, a panic, or still looping when the
oracles/fuel ran out. -/
inductive RunOutcome
  | returned
  | panicked
  | stillRunning
deriving DecidableEq, Repr

/-- The main event loop of `run` (`client.rs` lines 212-225): on a step
error, Reconnect re-enters `connect` + full re-subscribe (a failure of
either returns), Terminal returns. -/
def runLoop {σ : Type} (parse : String → Except Unit ResponseMessages)
    (h : Handler σ) : Nat → Worker σ → Env → RunOutcome
  | 0, _, _ => .stillRunning
  | fuel + 1, w, env =>
    match step parse h w env with
    | .ok w env _ => runLoop parse h fuel w env
    | .fail _ _ .terminal => .returned
    | .fail w env .reconnect =>
      match (connect w env).bind (fun w env _ => subscribeOp w env) with
      | .ok w env _ => runLoop parse h fuel w env
      | .fail _ _ _ => .returned
      | .panicked => .panicked
      | .stillRunning => .stillRunning
    | .panicked => .panicked
    | .stillRunning => .stillRunning

/-- `run` (`client.rs` lines 191-226): wait for the initial connection
(an `Err` logs and returns), call the handler's initialize callback (a
`Terminate` returns), then loop. -/
def run {σ : Type} (parse : String → Except Unit ResponseMessages)
    (h : Handler σ) (fuel : Nat) (w : Worker σ) (env : Env) : RunOutcome :=
  match wait_until_initial_connection w env with
  | .fail _ _ _ => .returned
  | .panicked => .panicked
  | .stillRunning => .stillRunning
  | .ok w env _ =>
    let r := h.init w.handlerState
    let w := { w with handlerState := r.1 }
    match r.2 with
    | .error _ => .returned
    | .ok () => runLoop parse h fuel w env

/-- C4: in the connect loop (used for both bootstrap and reconnect), once
the 500 ms gate admits an attempt, a `ConnectionClosed` transport error
returns the Terminal outcome immediately — the remaining attempts are
left unconsumed, no further retry happens and `last_connect_time` is not
touched — while any other transport connect error is logged, stamps
`last_connect_time` with the current reading, and the loop simply
recurses on the remaining attempts (unbounded retry). -/
theorem connect_terminal_on_closed_retries_otherwise {σ : Type} (w : Worker σ)
    (now : Nat) (ts : List Nat) (e : TungsteniteError)
    (cs : List (Except TungsteniteError Unit))
    (hgate : canTryToConnect w.last_connect_time now = true)
    (hne : e ≠ .connectionClosed) :
    connectLoop w (now :: ts) (.error .connectionClosed :: cs) = .terminal w ts cs ∧
    connectLoop w (now :: ts) (.error e :: cs) =
      connectLoop { w with last_connect_time := some now } ts cs := by
  constructor
  · simp [connectLoop, hgate]
  · cases e <;> first
      | exact absurd rfl hne
      | simp [connectLoop, hgate]

/-- Witness for C4 at a concrete worker and attempt list. -/
theorem connect_terminal_on_closed_retries_otherwise_witness :
    connectLoop (⟨none, none, ∅, ∅, ()⟩ : Worker Unit) [0]
        [.error .connectionClosed] =
      .terminal (⟨none, none, ∅, ∅, ()⟩ : Worker Unit) [] [] ∧
    connectLoop (⟨none, none, ∅, ∅, ()⟩ : Worker Unit) [0] [.error .io] =
      connectLoop
        ({ (⟨none, none, ∅, ∅, ()⟩ : Worker Unit) with last_connect_time := some 0 })
        [] [] :=
  connect_terminal_on_closed_retries_otherwise
    (⟨none, none, ∅, ∅, ()⟩ : Worker Unit) 0 [] .io []
    (by decide) (by decide)

/-- C6: a text frame whose body fails to parse makes `handle_message`
return success with the worker and environment unchanged (neither
Terminal nor Reconnect), and a subsequent well-formed frame is still
routed by its tag through `dispatch` to the matching handler callback,
whose state update and terminate decision take effect as usual. -/
theorem malformed_frame_ignored_then_wellformed_routed {σ : Type}
    (parse : String → Except Unit ResponseMessages) (h : Handler σ)
    (w : Worker σ) (env : Env) (bad good : String) (m : ResponseMessages)
    (hbad : parse bad = .error ()) (hgood : parse good = .ok m) :
    handle_message parse h w env bad = .ok w env () ∧
    handle_message parse h w env good =
      (match (dispatch h w.handlerState m).2 with
       | .ok _ => .ok { w with handlerState := (dispatch h w.handlerState m).1 } env ()
       | .error _ =>
         .fail { w with handlerState := (dispatch h w.handlerState m).1 } env .terminal) := by
  constructor
  · simp [handle_message, hbad]
  · simp only [handle_message, hgood]
    cases hd : (dispatch h w.handlerState m).2 with
    | ok u => cases u; simp [hd]
    | error t => simp [hd]

/-- A two-outcome parse oracle for exercising `handle_message`. -/
def parseW : String → Except Unit ResponseMessages :=
  fun j => if j = "good" then .ok (.heartbeat ⟨1, 2, "BTC-USD", "t"⟩) else .error ()

/-- An all-default handler over a unit state. -/
def defaultHandler : Handler Unit := {}

/-- A streaming worker with an open socket and empty subscription sets. -/
def streamingWorker : Worker Unit := ⟨none, some (), ∅, ∅, ()⟩

/-- An environment with every oracle empty. -/
def emptyEnv : Env := ⟨[], [], [], [], [], []⟩

/-- Witness for C6 at a concrete parse oracle, handler and worker. -/
theorem malformed_frame_ignored_then_wellformed_routed_witness :
    handle_message parseW defaultHandler streamingWorker emptyEnv "bad" =
      .ok streamingWorker emptyEnv () ∧
    handle_message parseW defaultHandler streamingWorker emptyEnv "good" =
      (match (dispatch defaultHandler streamingWorker.handlerState
          (.heartbeat ⟨1, 2, "BTC-USD", "t"⟩)).2 with
       | .ok _ =>
         .ok { streamingWorker with
               handlerState := (dispatch defaultHandler streamingWorker.handlerState
                 (.heartbeat ⟨1, 2, "BTC-USD", "t"⟩)).1 } emptyEnv ()
       | .error _ =>
         .fail { streamingWorker with
                 handlerState := (dispatch defaultHandler streamingWorker.handlerState
                   (.heartbeat ⟨1, 2, "BTC-USD", "t"⟩)).1 } emptyEnv .terminal) :=
  malformed_frame_ignored_then_wellformed_routed parseW defaultHandler
    streamingWorker emptyEnv "bad" "good" (.heartbeat ⟨1, 2, "BTC-USD", "t"⟩)
    rfl rfl

/-- The freshly spawned worker of `start` (`client.rs` lines 73-84): no
connect attempt yet, no socket, empty subscription sets. -/
def freshWorker : Worker Unit := ⟨none, none, ∅, ∅, ()⟩

/-- The environment of the C1 scenario: the first queue poll yields
`Stop` (before any Subscribe), the next poll finds the queue empty (the
facade still holds the sender); no transport activity exists at all. -/
def stopFirstEnv : Env := ⟨[.msg .stop, .empty], [], [], [], [], []⟩

/-- C1 evidence: with a Stop command arriving while the worker is still
awaiting its first connection, `wait_until_initial_connection` itself
does return `Ok(())` (the intended graceful path, socket still absent),
but `run` then proceeds into the main loop, polls the queue empty, calls
`consume_socket`, and panics on `opt_socket.unwrap()` — it does not
terminate normally. -/
theorem run_panics_on_stop_before_first_connection :
    wait_until_initial_connection freshWorker stopFirstEnv =
      .ok freshWorker { stopFirstEnv with queue := [.empty] } () ∧
    run (fun _ => .error ()) defaultHandler 1 freshWorker stopFirstEnv = .panicked :=
  ⟨rfl, rfl⟩

/-! The client facade (`client.rs` lines 27-139) -/

/-- `ClientState` (`client.rs` lines 27-32). -/
inductive ClientState
  | notInitialized
  | running
  | stopped
deriving DecidableEq, Repr

/-- The lifecycle fields of `CoinbaseWebSocketClient` that `stop`/`wait`
read: the state and whether a worker join handle is present. -/
structure ClientModel where
  state : ClientState
  join_handle : Option Unit
deriving DecidableEq, Repr

/-- Observable effects of a `stop`/`wait` call: the commands it enqueued
and whether it attempted to join the worker thread. -/
structure LifecycleEffects where
  enqueued : List WorkerMsg
  joinAttempted : Bool
deriving DecidableEq, Repr

/-- `CoinbaseWebSocketClient::stop` (`client.rs` lines 95-119).
`NotInitialized` and `Stopped` return after a log line only.  Otherwise
`Stop` is sent (a send failure is logged and swallowed, so `send_ok`
only decides whether the command lands in the queue), then
`join_handle.take().unwrap()` — a panic (`none`) when no handle exists —
and `.join().expect(..)` — a panic when the worker thread panicked —
before the state becomes `Stopped`. -/
def ClientModel.stop (c : ClientModel) (send_ok join_ok : Bool) :
    Option (ClientState × LifecycleEffects) :=
  match c.state with
  | .notInitialized => some (c.state, ⟨[], false⟩)
  | .stopped => some (c.state, ⟨[], false⟩)
  | .running =>
    let sent := if send_ok then [WorkerMsg.stop] else []
    match c.join_handle with
    | none => none
    | some _ => if join_ok then some (.stopped, ⟨sent, true⟩) else none

/-- `CoinbaseWebSocketClient::wait` (`client.rs` lines 121-138): same
no-op paths; otherwise no command is sent, the state is marked `Stopped`
and the join result is ignored (`let _ = join()`). -/
def ClientModel.wait (c : ClientModel) : Option (ClientState × LifecycleEffects) :=
  match c.state with
  | .notInitialized => some (c.state, ⟨[], false⟩)
  | .stopped => some (c.state, ⟨[], false⟩)
  | .running =>
    match c.join_handle with
    | none => none
    | some _ => some (.stopped, ⟨[], true⟩)

/-- C9: calling `stop` or `wait` while the lifecycle state is
`NotInitialized` or `Stopped` is a no-op beyond a log line: no command is
enqueued, no thread join is attempted, the state is returned unchanged,
and no panic occurs — in particular the no-op path never reaches the
`join_handle.take().unwrap()`, so observing it repeatedly cannot
double-join. -/
theorem stop_wait_noop_when_not_running (c : ClientModel) (send_ok join_ok : Bool)
    (hc : c.state = .notInitialized ∨ c.state = .stopped) :
    ClientModel.stop c send_ok join_ok = some (c.state, ⟨[], false⟩) ∧
    ClientModel.wait c = some (c.state, ⟨[], false⟩) := by
  rcases hc with h | h <;> simp [ClientModel.stop, ClientModel.wait, h]

/-- Witness for C9: a second `stop` observation on an already-stopped
client whose join handle is already gone still panics nowhere and joins
nothing. -/
theorem stop_wait_noop_when_not_running_witness :
    ClientModel.stop ⟨.stopped, none⟩ true true = some (.stopped, ⟨[], false⟩) ∧
    ClientModel.wait ⟨.stopped, none⟩ = some (.stopped, ⟨[], false⟩) :=
  stop_wait_noop_when_not_running ⟨.stopped, none⟩ true true (Or.inr rfl)
